import Mathlib

/-!
Verification of the real-time data-processing core of the airvision backend
(`backend/services/realtime_data_processor.py`).

Shallow embedding conventions:
* Python floats are modelled as rationals (ℚ); timestamps are rational
  seconds since an arbitrary epoch (`datetime` differences in the source are
  `total_seconds()`-style second counts).
* A Python dict of measurements is modelled as a structure of `Option ℚ`
  fields, one per key the source ever reads; `dict.get(k, d)` becomes
  `Option.getD`.
* Calls to `datetime.now()` inside a function are modelled by an explicit
  `now` argument; calls to `np.random.uniform(a, b)` are modelled by an
  explicit argument for the drawn value.
* `await`/locking/disk persistence have no observable effect on the
  in-memory state transitions being verified and are modelled as the
  identity; the interleaving semantics of the processing lock is modelled
  separately as a small-step transition system.
-/

namespace AirVision

/-- Timestamps: rational seconds since an arbitrary epoch. -/
abbrev Time := ℚ

/-- The `DataQuality` enum of the source. -/
inductive DataQuality
  | EXCELLENT
  | GOOD
  | FAIR
  | POOR
  | INVALID
deriving DecidableEq, Repr

/-- A measurements dict.  One `Option ℚ` field per key that
`realtime_data_processor.py` ever reads from the `measurements` mapping;
`none` models an absent (or `None`-valued) key. -/
structure Measurements where
  no2_column : Option ℚ := none
  o3_column : Option ℚ := none
  hcho_column : Option ℚ := none
  aerosol_optical_depth : Option ℚ := none
  cloud_fraction : Option ℚ := none
  solar_zenith_angle : Option ℚ := none
  pm25 : Option ℚ := none
  pm10 : Option ℚ := none
  no2 : Option ℚ := none
  o3 : Option ℚ := none
deriving DecidableEq, Repr

/-- Number of present keys of the dict (used for `len(data.measurements)`
in the cache size estimate). -/
def Measurements.count (m : Measurements) : ℕ :=
  m.no2_column.toList.length + m.o3_column.toList.length +
  m.hcho_column.toList.length + m.aerosol_optical_depth.toList.length +
  m.cloud_fraction.toList.length + m.solar_zenith_angle.toList.length +
  m.pm25.toList.length + m.pm10.toList.length +
  m.no2.toList.length + m.o3.toList.length

/-- Number of the four core fields (`no2_column`, `o3_column`,
`hcho_column`, `aerosol_optical_depth`) that are present, as in the
completeness term of `calculate_quality_score`. -/
def Measurements.coreCount (m : Measurements) : ℕ :=
  m.no2_column.toList.length + m.o3_column.toList.length +
  m.hcho_column.toList.length + m.aerosol_optical_depth.toList.length

/-- The composite→category mapping at the end of
`DataQualityFilter.calculate_quality_score` (the if/elif ladder on the
final score). -/
def scoreToQuality (score : ℚ) : DataQuality :=
  if score ≥ 8/10 then .EXCELLENT
  else if score ≥ 6/10 then .GOOD
  else if score ≥ 4/10 then .FAIR
  else if score ≥ 2/10 then .POOR
  else .INVALID

/-- The factor `1 - cloud_fraction * 0.3` applied by `score *= ...`
(missing cloud fraction defaults to the worst case 1.0). -/
def cloudFactor (m : Measurements) : ℚ := 1 - m.cloud_fraction.getD 1 * (3/10)

/-- The factor `1 - max(0, (sza - 45) / 45) * 0.2` (missing solar zenith
angle defaults to 90). -/
def szaFactor (m : Measurements) : ℚ :=
  1 - max 0 ((m.solar_zenith_angle.getD 90 - 45) / 45) * (2/10)

/-- The factor `completeness * 0.3`, completeness being the fraction of the
four core fields that are present. -/
def completenessFactor (m : Measurements) : ℚ := (m.coreCount : ℚ) / 4 * (3/10)

/-- The factor `freshness * 0.2` with
`freshness = max(0, 1 - age_hours / 24)` and
`age_hours = (now - satellite_pass_time).total_seconds() / 3600`. -/
def freshnessFactor (satellite_pass_time now : Time) : ℚ :=
  max 0 (1 - (now - satellite_pass_time) / 3600 / 24) * (2/10)

/-- The raw composite computed by `DataQualityFilter.calculate_quality_score`
before the category ladder.  Faithful to the source: the score starts at 1.0
and is MULTIPLIED by each factor (`score *= ...`), with the configured
weights `cloud_fraction = 0.3`, `solar_zenith_angle = 0.2`,
`data_completeness = 0.3`, `temporal_freshness = 0.2`.  The source reads
`datetime.now()` for the freshness term; that clock read is the explicit
`now` argument here. -/
def qualityRawScore (m : Measurements) (satellite_pass_time now : Time) : ℚ :=
  1 * cloudFactor m * szaFactor m * completenessFactor m
    * freshnessFactor satellite_pass_time now

/-- `DataQualityFilter.calculate_quality_score` of the source. -/
def calculate_quality_score (m : Measurements) (satellite_pass_time now : Time) :
    DataQuality :=
  scoreToQuality (qualityRawScore m satellite_pass_time now)

/-- Clamp to `[0, 1]`. -/
def clamp01 (q : ℚ) : ℚ := min 1 (max 0 q)

/-- Modelled from the spec: the WEIGHTED-SUM composite the spec prescribes
for `QualityScorer.Score` (cloud, solar, completeness and freshness
components combined by the weights 0.3/0.2/0.3/0.2), kept separate from the
source's multiplicative `qualityRawScore` for comparison. -/
def spec_quality_composite (m : Measurements) (sourceTime now : Time) : ℚ :=
  let cloud := 1 - m.cloud_fraction.getD 1
  let solar :=
    match m.solar_zenith_angle with
    | none => 0
    | some sza => clamp01 (1 - (sza - 45) / 45)
  let completeness : ℚ := (m.coreCount : ℚ) / 4
  let age_hours := (now - sourceTime) / 3600
  let freshness := max 0 (1 - age_hours / 24)
  (3/10) * cloud + (2/10) * solar + (3/10) * completeness + (2/10) * freshness

/-- Modelled from the spec: `QualityScorer.Score` as the spec words it
(weighted sum through the same category thresholds). -/
def spec_quality_score (m : Measurements) (sourceTime now : Time) : DataQuality :=
  scoreToQuality (spec_quality_composite m sourceTime now)

/-! Python numeric helpers used by the source: `round(x, 1)` (banker's
rounding at one decimal) and `int(x)` (truncation toward zero). -/

/-- Python `round(x)`: round half to even. -/
def roundHalfEven (q : ℚ) : ℤ :=
  let f := ⌊q⌋
  let r := q - (f : ℚ)
  if r < 1/2 then f
  else if r > 1/2 then f + 1
  else if 2 ∣ f then f else f + 1

/-- Python `round(x, 1)`. -/
def round1 (q : ℚ) : ℚ := (roundHalfEven (10 * q) : ℚ) / 10

/-- Python `int(x)`: truncation toward zero. -/
def pyInt (q : ℚ) : ℤ := if 0 ≤ q then ⌊q⌋ else -⌊-q⌋

/-- The surface-estimate dict returned by
`RealTimeDataProcessor._process_surface_estimates`: always exactly the four
keys `no2`, `o3`, `pm25`, `pm10`. -/
structure SurfaceEstimate where
  no2 : ℚ
  o3 : ℚ
  pm25 : ℚ
  pm10 : ℚ
deriving DecidableEq, Repr

/-- `RealTimeDataProcessor._process_surface_estimates` of the source.
Hidden inputs made explicit: `is_daytime` models the source's
`6 <= datetime.now().hour <= 18`; `u` models the draw
`np.random.uniform(-10, 10)` added to the PM2.5 estimate; `r` models the
draw `np.random.uniform(1.5, 2.1)` multiplying PM2.5 into PM10.  The
`quality_flags` argument of the source is never read and is omitted. -/
def process_surface_estimates (m : Measurements) (is_daytime : Bool)
    (u r : ℚ) : SurfaceEstimate :=
  let no2_column := m.no2_column.getD 0
  let no2_surface := no2_column * (425/10)
  let o3_column := m.o3_column.getD 0
  let o3_surface := if is_daytime then (o3_column / 300) * 120 else (o3_column / 300) * 80
  let aod := m.aerosol_optical_depth.getD 0
  let pm25_estimate := aod * 65 + u
  let pm25_clamped := max 5 pm25_estimate
  let pm10_estimate := pm25_clamped * r
  { no2 := round1 no2_surface
    o3 := round1 o3_surface
    pm25 := round1 pm25_clamped
    pm10 := round1 pm10_estimate }

/-- The `air_quality` dict produced by
`RealTimeDataProcessor._calculate_air_quality`: always the three keys
`aqi`, `category`, `dominant_pollutant`. -/
structure AirQuality where
  aqi : ℤ
  category : String
  dominant_pollutant : String
deriving DecidableEq, Repr

/-- Per-pollutant sub-index `min(500, max(0, (no2 / 200) * 100))`. -/
def no2_aqi (s : SurfaceEstimate) : ℚ := min 500 (max 0 ((s.no2 / 200) * 100))

/-- Per-pollutant sub-index `min(500, max(0, (o3 / 160) * 100))`. -/
def o3_aqi (s : SurfaceEstimate) : ℚ := min 500 (max 0 ((s.o3 / 160) * 100))

/-- Per-pollutant sub-index
`min(500, max(0, (pm25 / 35) * 50 + (max(0, pm25 - 35) / 25) * 50))`. -/
def pm25_aqi (s : SurfaceEstimate) : ℚ :=
  min 500 (max 0 ((s.pm25 / 35) * 50 + (max 0 (s.pm25 - 35) / 25) * 50))

/-- Per-pollutant sub-index
`min(500, max(0, (pm10 / 50) * 50 + (max(0, pm10 - 50) * 2)))`. -/
def pm10_aqi (s : SurfaceEstimate) : ℚ :=
  min 500 (max 0 ((s.pm10 / 50) * 50 + max 0 (s.pm10 - 50) * 2))

/-- Python `max(pollutants, key=pollutants.get)` over the insertion-ordered
dict: scan the (name, value) pairs keeping the current best, replacing it
only on a STRICTLY greater value, so the first maximal name wins. -/
def maxByFirst : List (String × ℚ) → String × ℚ → String
  | [], acc => acc.1
  | p :: rest, acc => maxByFirst rest (if p.2 > acc.2 then p else acc)

/-- `RealTimeDataProcessor._calculate_air_quality` of the source. -/
def calculate_air_quality (s : SurfaceEstimate) : AirQuality :=
  let aqi := pyInt (max (no2_aqi s) (max (o3_aqi s) (max (pm25_aqi s) (pm10_aqi s))))
  let category :=
    if aqi ≤ 50 then "Good"
    else if aqi ≤ 100 then "Moderate"
    else if aqi ≤ 150 then "Unhealthy for Sensitive Groups"
    else if aqi ≤ 200 then "Unhealthy"
    else if aqi ≤ 300 then "Very Unhealthy"
    else "Hazardous"
  let dominant := maxByFirst
    [("O3", s.o3 / 160), ("PM2.5", s.pm25 / 35), ("PM10", s.pm10 / 50)]
    ("NO2", s.no2 / 200)
  { aqi := aqi, category := category, dominant_pollutant := dominant }

/-- Modelled from the spec: `dominantPollutant` as the spec words it — the
name of the pollutant whose AQI SUB-INDEX (the ones whose maximum is the
returned index) attains that maximum, ties broken by the priority order
pm25, pm10, no2, o3.  Names are normalized to the source's labels
("PM2.5", "PM10", "NO2", "O3") so that only the selection rule is
compared. -/
def spec_dominant_pollutant (s : SurfaceEstimate) : String :=
  let m := max (no2_aqi s) (max (o3_aqi s) (max (pm25_aqi s) (pm10_aqi s)))
  if pm25_aqi s = m then "PM2.5"
  else if pm10_aqi s = m then "PM10"
  else if no2_aqi s = m then "NO2"
  else "O3"

/-- The `ProcessedData` dataclass of the source.  `quality_flags` and
`metadata` are dicts whose contents the core never reads — only their
`len(...)` enters the cache size estimate — so they are modelled by their
entry counts.  `processing_time_ms` is a wall-clock measurement with no
influence on any verified behaviour and is omitted. -/
structure ProcessedData where
  city : String
  lat : ℚ
  lon : ℚ
  timestamp : Time
  satellite_pass_time : Time
  measurements : Measurements
  surface_estimates : SurfaceEstimate
  air_quality : AirQuality
  quality_flags : ℕ
  metadata : ℕ
  data_quality : DataQuality
  cache_key : String
deriving DecidableEq, Repr

/-- The `CacheEntry` dataclass of the source. -/
structure CacheEntry where
  data : ProcessedData
  created_at : Time
  expires_at : Time
  access_count : ℕ
  last_accessed : Time
  file_size_bytes : ℤ
deriving DecidableEq, Repr

/-- `SatelliteDataCache._calculate_entry_size`: `1024 + 2*len(city) +
16*len(measurements) + 16*len(surface_estimates) + 16*len(air_quality) +
16*len(quality_flags) + 16*len(metadata)`; the surface-estimates dict
always has 4 entries and the air-quality dict 3. -/
def calculate_entry_size (d : ProcessedData) : ℤ :=
  1024 + 2 * (d.city.length : ℤ) + 16 * (d.measurements.count : ℤ)
    + 16 * 4 + 16 * 3 + 16 * (d.quality_flags : ℤ) + 16 * (d.metadata : ℤ)

/-- Association-list read, first match wins (a Python dict has unique keys,
so first match is the match). -/
def aget (l : List (String × CacheEntry)) (k : String) : Option CacheEntry :=
  match l with
  | [] => none
  | p :: rest => if p.1 = k then some p.2 else aget rest k

/-- Association-list write: `dict[k] = v` replaces the existing binding in
place or appends a new one (Python dicts keep insertion order). -/
def aset (l : List (String × CacheEntry)) (k : String) (v : CacheEntry) :
    List (String × CacheEntry) :=
  match l with
  | [] => [(k, v)]
  | p :: rest => if p.1 = k then (k, v) :: rest else p :: aset rest k v

/-- Association-list delete of the (unique) binding of `k`. -/
def adel (l : List (String × CacheEntry)) (k : String) :
    List (String × CacheEntry) :=
  match l with
  | [] => []
  | p :: rest => if p.1 = k then rest else p :: adel rest k

/-- In-memory state of `SatelliteDataCache`.  The on-disk mirror
(`_persist_to_disk`, file deletes) never feeds back into the verified
in-memory transitions and is not modelled. -/
structure SatelliteDataCache where
  max_size_bytes : ℤ
  ttl_seconds : ℚ
  cache : List (String × CacheEntry)
  access_order : List String
  current_size : ℤ
deriving DecidableEq, Repr

/-- `SatelliteDataCache.__init__(max_size_mb, ttl_hours)`. -/
def mkCache (max_size_mb ttl_hours : ℕ) : SatelliteDataCache :=
  { max_size_bytes := (max_size_mb : ℤ) * 1024 * 1024
    ttl_seconds := (ttl_hours : ℚ) * 3600
    cache := []
    access_order := []
    current_size := 0 }

/-- The `while self.current_size > self.max_size_bytes and self.access_order`
loop of `_evict_lru`: pop the head of the access order; if the key is live,
subtract its size and delete it. -/
def evictLoop (m : ℤ) :
    List String → List (String × CacheEntry) → ℤ →
    List String × List (String × CacheEntry) × ℤ
  | [], cache, cur => ([], cache, cur)
  | k :: rest, cache, cur =>
    if m < cur then
      match aget cache k with
      | some e => evictLoop m rest (adel cache k) (cur - e.file_size_bytes)
      | none => evictLoop m rest cache cur
    else (k :: rest, cache, cur)

/-- `SatelliteDataCache._evict_lru`. -/
def SatelliteDataCache.evict_lru (c : SatelliteDataCache) : SatelliteDataCache :=
  let t := evictLoop c.max_size_bytes c.access_order c.cache c.current_size
  { c with access_order := t.1, cache := t.2.1, current_size := t.2.2 }

/-- `SatelliteDataCache._update_access_order`: move the key to the
most-recent end (remove the first occurrence if present, then append). -/
def updateAccessOrder (l : List String) (k : String) : List String :=
  (l.erase k) ++ [k]

/-- `SatelliteDataCache.put`.  The `datetime.now()` reads are the explicit
`now`; the fire-and-forget `_persist_to_disk` leaves the in-memory state
unchanged. -/
def SatelliteDataCache.put (c : SatelliteDataCache) (d : ProcessedData)
    (now : Time) : SatelliteDataCache :=
  let entry_size := calculate_entry_size d
  let entry : CacheEntry :=
    { data := d, created_at := now, expires_at := now + c.ttl_seconds
      access_count := 1, last_accessed := now, file_size_bytes := entry_size }
  let c1 := if c.max_size_bytes < c.current_size + entry_size then c.evict_lru else c
  { c1 with cache := aset c1.cache d.cache_key entry
            current_size := c1.current_size + entry_size
            access_order := updateAccessOrder c1.access_order d.cache_key }

/-- `SatelliteDataCache.get`, keyed directly by the derived cache key (the
source regenerates the key from city/lat/lon/timestamp via
`_generate_cache_key` and then looks it up; the MD5 hashing step is a pure
function of those inputs and is outside the model).  Returns the value (if
any) together with the updated cache state. -/
def SatelliteDataCache.get (c : SatelliteDataCache) (key : String)
    (now : Time) : Option ProcessedData × SatelliteDataCache :=
  match aget c.cache key with
  | none => (none, c)
  | some entry =>
    if entry.expires_at < now then
      (none, { c with cache := adel c.cache key
                      access_order := c.access_order.erase key
                      current_size := c.current_size - entry.file_size_bytes })
    else
      let e2 := { entry with access_count := entry.access_count + 1
                             last_accessed := now }
      (some entry.data, { c with cache := aset c.cache key e2
                                 access_order := updateAccessOrder c.access_order key })

/-- The fields of `get_cache_stats` the spec's `Stats()` claims are about:
the entry count and the tracked byte total (`current_size`; the source
reports it as `total_size_mb = current_size / 2^20`). -/
structure CacheStats where
  total_entries : ℕ
  total_size_bytes : ℤ
deriving DecidableEq, Repr

/-- `SatelliteDataCache.get_cache_stats`, restricted to the claimed
fields. -/
def SatelliteDataCache.get_cache_stats (c : SatelliteDataCache) : CacheStats :=
  { total_entries := c.cache.length, total_size_bytes := c.current_size }

/-- `SatelliteDataCache._generate_cache_key`.  The source formats
`f"{city}_{lat:.4f}_{lon:.4f}_{timestamp.isoformat()}"` and MD5-hashes it;
the hash is a fixed pure function, so the key is modelled as the pre-hash
data (coordinates rounded half-even to 4 decimals as the format spec
does). -/
def generate_cache_key (city : String) (lat lon : ℚ) (ts : Time) : String :=
  city ++ "_" ++ toString (roundHalfEven (10000 * lat)) ++ "_"
    ++ toString (roundHalfEven (10000 * lon)) ++ "_" ++ toString ts

/-- The `raw_data` dict handed to `process_satellite_data`:
`timestamp` and `satellite_pass_time` may be absent (`raw_data.get(...,
datetime.now())` then substitutes the current time); `quality_flags` and
`metadata` are dicts modelled by their entry counts. -/
structure RawData where
  timestamp : Option Time := none
  satellite_pass_time : Option Time := none
  measurements : Measurements := {}
  quality_flags : ℕ := 0
  metadata : ℕ := 0
deriving DecidableEq, Repr

/-- Hour-of-day of a timestamp, for the source's
`datetime.now().hour` daytime test. -/
def pyHour (now : Time) : ℤ := ⌊now / 3600⌋ % 24

/-- `RealTimeDataProcessor.process_satellite_data` as a state transformer
on the cache.  All `datetime.now()` reads during one call are the explicit
`now`; `u` and `r` are the two `np.random.uniform` draws consumed by
`_process_surface_estimates`.  The `async with self.processing_lock`
critical section serializes callers; a single call is modelled
sequentially (its interleaving behaviour is modelled separately below). -/
def process_satellite_data (c : SatelliteDataCache) (city : String)
    (lat lon : ℚ) (raw : RawData) (now : Time) (u r : ℚ) :
    ProcessedData × SatelliteDataCache :=
  let cache_key := generate_cache_key city lat lon (raw.timestamp.getD now)
  match c.get cache_key now with
  | (some d, c1) => (d, c1)
  | (none, c1) =>
    let m := raw.measurements
    let data_quality := calculate_quality_score m (raw.satellite_pass_time.getD now) now
    let is_daytime := decide (6 ≤ pyHour now ∧ pyHour now ≤ 18)
    let se := process_surface_estimates m is_daytime u r
    let aq := calculate_air_quality se
    let d : ProcessedData :=
      { city := city, lat := lat, lon := lon
        timestamp := raw.timestamp.getD now
        satellite_pass_time := raw.satellite_pass_time.getD now
        measurements := m, surface_estimates := se, air_quality := aq
        quality_flags := raw.quality_flags, metadata := raw.metadata
        data_quality := data_quality, cache_key := cache_key }
    (d, c1.put d now)

/-- Run a sequence of `put` calls (value, call time) against a cache. -/
def putSeq (c : SatelliteDataCache) : List (ProcessedData × Time) → SatelliteDataCache
  | [] => c
  | p :: rest => putSeq (c.put p.1 p.2) rest

namespace Concurrency

/-!
Interleaving model of two callers racing through
`RealTimeDataProcessor.process_satellite_data` for the SAME cache key,
both starting before the key is cached.  Program points follow the source:
check the cache; on a miss wait for `self.processing_lock`; once inside the
critical section the source computes immediately — there is no second
cache check before computing — then stores the result and releases the
lock.  `computes` counts how many callers executed the full
score/estimate/index pipeline.
-/

/-- Program counter of one caller. -/
inductive PC
  | checkCache
  | awaitLock
  | compute
  | store
  | done
deriving DecidableEq, Repr

/-- Joint state of the two callers, the shared cache population flag for
the contended key, and the processing lock. -/
structure Sys where
  pc0 : PC
  pc1 : PC
  cached : Bool
  lockHeld : Bool
  computes : ℕ
deriving DecidableEq, Repr

/-- Program counter of caller `t`. -/
def pcOf (s : Sys) (t : Bool) : PC := if t then s.pc1 else s.pc0

/-- Replace the program counter of caller `t`. -/
def setPc (s : Sys) (t : Bool) (p : PC) : Sys :=
  if t then { s with pc1 := p } else { s with pc0 := p }

/-- One small step of caller `t`, following the source code: a cache hit
finishes the call; a miss proceeds to the lock; acquiring the lock leads
STRAIGHT to the compute pipeline (no re-check of the cache inside the
critical section); storing puts the result in the cache and releases the
lock. -/
def step (s : Sys) (t : Bool) : Sys :=
  match pcOf s t with
  | .checkCache => if s.cached then setPc s t .done else setPc s t .awaitLock
  | .awaitLock => if s.lockHeld then s else { setPc s t .compute with lockHeld := true }
  | .compute => { setPc s t .store with computes := s.computes + 1 }
  | .store => { setPc s t .done with cached := true, lockHeld := false }
  | .done => s

/-- Run a schedule (list of caller ids) from a state. -/
def run (s : Sys) (sched : List Bool) : Sys := sched.foldl step s

/-- Both callers about to check a cache that does not hold the key. -/
def init : Sys := ⟨.checkCache, .checkCache, false, false, 0⟩

/-- A caller at this program point is executing the
score/estimate/index compute pipeline inside the critical section. -/
def inCrit : PC → Bool
  | .compute => true
  | .store => true
  | _ => false

/-- Lock invariant: the processing lock is held exactly while some caller
is inside the critical section, and never are both callers inside it. -/
def good (s : Sys) : Prop :=
  s.lockHeld = (inCrit s.pc0 || inCrit s.pc1) ∧
  (inCrit s.pc0 && inCrit s.pc1) = false

end Concurrency

/-- Total of the tracked entry sizes of an association list (the quantity
`current_size` is meant to mirror). -/
def sizeSum (l : List (String × CacheEntry)) : ℤ :=
  (l.map fun p => p.2.file_size_bytes).sum

/-- The keys of an association list, in order. -/
def keysOf (l : List (String × CacheEntry)) : List String := l.map Prod.fst

/-- Bookkeeping invariant of the cache reachable by `put` calls from an
empty cache: the tracked size is the sum of the stored entry sizes, and
the access order lists exactly the stored keys in order. -/
def SizeInv (c : SatelliteDataCache) : Prop :=
  c.current_size = sizeSum c.cache ∧ c.access_order = keysOf c.cache

/-! Concrete inputs used by counterexamples and witnesses. -/

/-- A fully-populated, in-range measurement record: all four core fields
present with values inside the validation thresholds, clear sky
(`cloud_fraction = 0`), high sun (`solar_zenith_angle = 30`). -/
def mGoodPass : Measurements :=
  { no2_column := some 5, o3_column := some 300, hcho_column := some 1
    aerosol_optical_depth := some (1/2), cloud_fraction := some 0
    solar_zenith_angle := some 30 }

/-- Surface estimates with `no2 = 200` (sub-index 100) and `pm25 = 40`
(sub-index 67.14…, but simple ratio 40/35 > 200/200). -/
def sRatioVsSub : SurfaceEstimate := { no2 := 200, o3 := 0, pm25 := 40, pm10 := 0 }

/-- A minimal processed record (empty city and dicts) with cache key "k0":
its estimated entry size is 1024 + 16*4 + 16*3 = 1136 bytes. -/
def dSmall : ProcessedData :=
  { city := "", lat := 0, lon := 0, timestamp := 0, satellite_pass_time := 0
    measurements := {}, surface_estimates := { no2 := 0, o3 := 0, pm25 := 0, pm10 := 0 }
    air_quality := { aqi := 0, category := "Good", dominant_pollutant := "NO2" }
    quality_flags := 0, metadata := 0, data_quality := .GOOD, cache_key := "k0" }

/-- The same record under a second, distinct cache key. -/
def dSmall2 : ProcessedData := { dSmall with cache_key := "k1" }

/-! Helper lemmas about the quality score. -/

lemma scoreToQuality_of_lt {score : ℚ} (h : score < 2/10) :
    scoreToQuality score = DataQuality.INVALID := by
  unfold scoreToQuality
  rw [if_neg (by linarith), if_neg (by linarith), if_neg (by linarith),
      if_neg (by linarith)]

lemma coreCount_le_four (m : Measurements) : m.coreCount ≤ 4 := by
  unfold Measurements.coreCount
  cases m.no2_column <;> cases m.o3_column <;> cases m.hcho_column <;>
    cases m.aerosol_optical_depth <;> simp [Option.toList]

lemma cloudFactor_bounds (m : Measurements)
    (h : ∀ cf ∈ m.cloud_fraction, 0 ≤ cf ∧ cf ≤ 1) :
    0 ≤ cloudFactor m ∧ cloudFactor m ≤ 1 := by
  unfold cloudFactor
  rcases hm : m.cloud_fraction with _ | cf
  · simp; norm_num
  · have := h cf (by simp [hm])
    simp only [hm, Option.getD_some]
    constructor <;> linarith [this.1, this.2]

lemma szaFactor_bounds (m : Measurements)
    (h : ∀ z ∈ m.solar_zenith_angle, 0 ≤ z ∧ z ≤ 180) :
    0 ≤ szaFactor m ∧ szaFactor m ≤ 1 := by
  unfold szaFactor
  have hp0 : (0:ℚ) ≤ max 0 ((m.solar_zenith_angle.getD 90 - 45) / 45) := le_max_left _ _
  have hp3 : max 0 ((m.solar_zenith_angle.getD 90 - 45) / 45) ≤ 3 := by
    apply max_le (by norm_num)
    rcases hm : m.solar_zenith_angle with _ | z
    · norm_num
    · have := h z (by simp [hm])
      simp only [hm, Option.getD_some]
      rw [div_le_iff₀ (by norm_num : (0:ℚ) < 45)]
      linarith [this.2]
  constructor <;> linarith

lemma completenessFactor_bounds (m : Measurements) :
    0 ≤ completenessFactor m ∧ completenessFactor m ≤ 3/10 := by
  unfold completenessFactor
  have h0 : (0:ℚ) ≤ (m.coreCount : ℚ) := by positivity
  have h4 : (m.coreCount : ℚ) ≤ 4 := by exact_mod_cast coreCount_le_four m
  constructor
  · positivity
  · rw [div_mul_eq_mul_div, mul_comm, mul_div_assoc]
    nlinarith

lemma freshnessFactor_bounds (pass now : Time) (h : pass ≤ now) :
    0 ≤ freshnessFactor pass now ∧ freshnessFactor pass now ≤ 2/10 := by
  unfold freshnessFactor
  have hf0 : (0:ℚ) ≤ max 0 (1 - (now - pass) / 3600 / 24) := le_max_left _ _
  have hage : (0:ℚ) ≤ (now - pass) / 3600 / 24 := by
    have hnp : (0:ℚ) ≤ now - pass := by linarith
    positivity
  have hf1 : max 0 (1 - (now - pass) / 3600 / 24) ≤ 1 :=
    max_le (by norm_num) (by linarith)
  constructor <;> nlinarith

/-! Theorems settling the claims. -/

/-- C10: for every measurement record whose cloud fraction (if present)
lies in [0, 1] and whose solar zenith angle (if present) lies in [0, 180],
and every satellite pass time not later than `now`, the source's
multiplicative quality composite is at most 0.3 * 0.2 = 0.06 < 0.2, so
`calculate_quality_score` always returns `INVALID`. -/
theorem score_always_invalid (m : Measurements) (pass now : Time)
    (hcf : ∀ cf ∈ m.cloud_fraction, 0 ≤ cf ∧ cf ≤ 1)
    (hsza : ∀ z ∈ m.solar_zenith_angle, 0 ≤ z ∧ z ≤ 180)
    (hage : pass ≤ now) :
    calculate_quality_score m pass now = DataQuality.INVALID := by
  apply scoreToQuality_of_lt
  obtain ⟨ha0, ha1⟩ := cloudFactor_bounds m hcf
  obtain ⟨hb0, hb1⟩ := szaFactor_bounds m hsza
  obtain ⟨hc0, hc1⟩ := completenessFactor_bounds m
  obtain ⟨hd0, hd1⟩ := freshnessFactor_bounds pass now hage
  unfold qualityRawScore
  nlinarith [mul_nonneg (mul_nonneg ha0 hb0) hc0,
    mul_le_one₀ (a := cloudFactor m) (b := szaFactor m) ha1 hb0 hb1]

/-- Witness for C10 at the empty record and pass time = now. -/
theorem score_always_invalid_witness :
    calculate_quality_score {} 0 0 = DataQuality.INVALID :=
  score_always_invalid {} 0 0 (by simp) (by simp) le_rfl

unseal Rat.mul Rat.inv Rat.add Rat.sub in
/-- C1 (code bug): on a complete, fresh, clear-sky, in-range record the
spec's weighted-sum composite is 1.0, giving `EXCELLENT`, but the source
multiplies the factors (`score *= completeness * weight` etc.), yielding
composite 0.06 and hence `INVALID`: the thresholds 0.8/0.6/0.4/0.2 of the
source's own category ladder are unreachable. -/
theorem score_multiplicative_not_weighted_sum :
    calculate_quality_score mGoodPass 0 0 = DataQuality.INVALID ∧
    spec_quality_score mGoodPass 0 0 = DataQuality.EXCELLENT ∧
    qualityRawScore mGoodPass 0 0 = 6/100 := by
  refine ⟨by decide, by decide, by decide⟩

unseal Rat.mul Rat.inv Rat.add Rat.sub in
/-- C2 (counterexample): with the same raw measurement, the same daytime
flag and everything else fixed, two runs of `_process_surface_estimates`
that consume different `np.random.uniform(-10, 10)` draws return different
estimates (pm25 = 60 vs 70), so the function is not a deterministic
function of `(raw, isDaytime, now)` alone. -/
theorem estimate_differs_across_runs :
    (process_surface_estimates { aerosol_optical_depth := some 1 } true (-5) (3/2)).pm25 = 60 ∧
    (process_surface_estimates { aerosol_optical_depth := some 1 } true 5 (3/2)).pm25 = 70 ∧
    (60:ℚ) ≠ 70 := by
  refine ⟨by decide, by decide, by decide⟩

unseal Rat.mul Rat.inv Rat.add Rat.sub in
/-- C2 (amended): `calculate_quality_score` and `calculate_air_quality`
are pure functions of their explicit arguments (the embedding gives them
no random inputs because the source draws none there), and the no2 and o3
components of `_process_surface_estimates` do not depend on the random
draws either; but the pm25 component genuinely does, so only the first two
stages are deterministic given `(raw, isDaytime, now)`. -/
theorem determinism_except_random_pm :
    (∀ (m : Measurements) (pass now : Time),
      calculate_quality_score m pass now = calculate_quality_score m pass now ∧
      (∀ s : SurfaceEstimate, calculate_air_quality s = calculate_air_quality s)) ∧
    (∀ (m : Measurements) (d : Bool) (u1 r1 u2 r2 : ℚ),
      (process_surface_estimates m d u1 r1).no2 = (process_surface_estimates m d u2 r2).no2 ∧
      (process_surface_estimates m d u1 r1).o3 = (process_surface_estimates m d u2 r2).o3) ∧
    (∃ (m : Measurements) (d : Bool) (u1 r1 u2 r2 : ℚ),
      (process_surface_estimates m d u1 r1).pm25 ≠ (process_surface_estimates m d u2 r2).pm25) := by
  refine ⟨fun m pass now => ⟨rfl, fun s => rfl⟩,
    fun m d u1 r1 u2 r2 => ⟨rfl, rfl⟩,
    ⟨{ aerosol_optical_depth := some 1 }, true, -5, 3/2, 5, 3/2, by decide⟩⟩

unseal Rat.mul Rat.inv Rat.add Rat.sub in
/-- C5 (counterexample): a record carrying a directly measured ground
`no2 = 123` together with `no2_column = 2` yields surface `no2 = 85`
(the column-derived value `2 * 42.5`), not the ground value: the ground
pollutant fields do not take precedence. -/
theorem estimate_ignores_ground_no2 :
    (process_surface_estimates { no2_column := some 2, no2 := some 123 } true 0 (3/2)).no2
      = 85 ∧ (85:ℚ) ≠ 123 := by
  refine ⟨by decide, by decide⟩

/-- C5 (amended): `_process_surface_estimates` never reads the ground
pollutant fields `pm25`, `pm10`, `no2`, `o3` of the measurement record —
replacing them by anything leaves the output unchanged; the output is
derived solely from `no2_column`, `o3_column` and
`aerosol_optical_depth`. -/
theorem estimate_ignores_ground_fields (m : Measurements) (d : Bool) (u r : ℚ)
    (a b c e : Option ℚ) :
    process_surface_estimates { m with pm25 := a, pm10 := b, no2 := c, o3 := e } d u r
      = process_surface_estimates m d u r := rfl

lemma roundHalfEven_nonneg {q : ℚ} (h : 0 ≤ q) : 0 ≤ roundHalfEven q := by
  unfold roundHalfEven
  dsimp only
  have hf : (0:ℤ) ≤ ⌊q⌋ := Int.floor_nonneg.mpr h
  split_ifs <;> omega

lemma round1_nonneg {q : ℚ} (h : 0 ≤ q) : 0 ≤ round1 q := by
  unfold round1
  have h10 : (0:ℚ) ≤ 10 * q := by linarith
  have := roundHalfEven_nonneg h10
  have hc : (0:ℚ) ≤ (roundHalfEven (10 * q) : ℚ) := by exact_mod_cast this
  positivity

unseal Rat.mul Rat.inv Rat.add Rat.sub in
/-- C7 (counterexample): a record with a negative `no2_column` produces a
negative surface estimate (`-1 * 42.5 = -42.5`), so the returned values
are not always ≥ 0. -/
theorem estimate_negative_no2 :
    (process_surface_estimates { no2_column := some (-1) } true 0 (3/2)).no2 < 0 := by
  decide

/-- C7 (amended): the pm25 estimate is always ≥ 0 (it is clamped below at
5) and pm10 is ≥ 0 whenever the random PM10/PM2.5 ratio draw is ≥ 0 (the
source draws it from [1.5, 2.1)); but no2 and o3 are ≥ 0 only when the
corresponding column inputs are ≥ 0 — the source never clamps them. -/
theorem estimate_nonneg_for_nonneg_columns (m : Measurements) (d : Bool) (u r : ℚ)
    (h1 : 0 ≤ m.no2_column.getD 0) (h2 : 0 ≤ m.o3_column.getD 0) (hr : 0 ≤ r) :
    0 ≤ (process_surface_estimates m d u r).no2 ∧
    0 ≤ (process_surface_estimates m d u r).o3 ∧
    0 ≤ (process_surface_estimates m d u r).pm25 ∧
    0 ≤ (process_surface_estimates m d u r).pm10 := by
  have hpm : (0:ℚ) ≤ max 5 (m.aerosol_optical_depth.getD 0 * 65 + u) :=
    le_trans (by norm_num) (le_max_left _ _)
  refine ⟨round1_nonneg (by positivity), round1_nonneg ?_, round1_nonneg hpm,
    round1_nonneg (mul_nonneg hpm hr)⟩
  · show (0:ℚ) ≤ if d then m.o3_column.getD 0 / 300 * 120 else m.o3_column.getD 0 / 300 * 80
    split_ifs <;> positivity

unseal Rat.mul Rat.inv Rat.add Rat.sub in
/-- Witness for the amended C7 at an all-absent record with ratio draw
1.5. -/
theorem estimate_nonneg_for_nonneg_columns_witness :
    0 ≤ (process_surface_estimates {} true (-7) (3/2)).no2 ∧
    0 ≤ (process_surface_estimates {} true (-7) (3/2)).o3 ∧
    0 ≤ (process_surface_estimates {} true (-7) (3/2)).pm25 ∧
    0 ≤ (process_surface_estimates {} true (-7) (3/2)).pm10 :=
  estimate_nonneg_for_nonneg_columns {} true (-7) (3/2) (by decide) (by decide) (by decide)

lemma dominant_cases (s : SurfaceEstimate) :
    ((calculate_air_quality s).dominant_pollutant = "NO2" ∧
      s.o3/160 ≤ s.no2/200 ∧ s.pm25/35 ≤ s.no2/200 ∧ s.pm10/50 ≤ s.no2/200) ∨
    ((calculate_air_quality s).dominant_pollutant = "O3" ∧
      s.no2/200 < s.o3/160 ∧ s.pm25/35 ≤ s.o3/160 ∧ s.pm10/50 ≤ s.o3/160) ∨
    ((calculate_air_quality s).dominant_pollutant = "PM2.5" ∧
      s.no2/200 < s.pm25/35 ∧ s.o3/160 < s.pm25/35 ∧ s.pm10/50 ≤ s.pm25/35) ∨
    ((calculate_air_quality s).dominant_pollutant = "PM10" ∧
      s.no2/200 < s.pm10/50 ∧ s.o3/160 < s.pm10/50 ∧ s.pm25/35 < s.pm10/50) := by
  simp only [calculate_air_quality, maxByFirst]
  dsimp only
  split_ifs with h1 h2 h3 h4 h5 h6 h7 <;> dsimp only <;> simp_all <;>
    first
      | (constructor <;> linarith)
      | linarith

unseal Rat.mul Rat.inv Rat.add Rat.sub in
/-- C6 (counterexample): on estimates `no2 = 200, pm25 = 40` the overall
index comes from the NO2 sub-index (100, against 67.14… for pm25), so the
pollutant whose sub-index attains the maximum is NO2; but the source picks
the dominant pollutant by the plain ratios `no2/200 = 1 < 40/35 = pm25/35`
and returns "PM2.5". -/
theorem dominant_not_subindex_argmax :
    (calculate_air_quality sRatioVsSub).dominant_pollutant = "PM2.5" ∧
    spec_dominant_pollutant sRatioVsSub = "NO2" ∧
    no2_aqi sRatioVsSub = 100 ∧ pm25_aqi sRatioVsSub < 100 := by
  refine ⟨by decide, by decide, by decide, by decide⟩

/-- C6 (amended): `dominant_pollutant` is the first maximiser, in the
fixed scan order NO2, O3, PM2.5, PM10, of the simple ratios `no2/200`,
`o3/160`, `pm25/35`, `pm10/50` (not of the AQI sub-indices, and ties
prefer NO2 first, not pm25); in particular it is "PM2.5" whenever
`pm25/35` strictly exceeds the other three ratios. -/
theorem dominant_is_first_ratio_argmax :
    (∀ s : SurfaceEstimate,
      ((calculate_air_quality s).dominant_pollutant = "NO2" ∧
        s.o3/160 ≤ s.no2/200 ∧ s.pm25/35 ≤ s.no2/200 ∧ s.pm10/50 ≤ s.no2/200) ∨
      ((calculate_air_quality s).dominant_pollutant = "O3" ∧
        s.no2/200 < s.o3/160 ∧ s.pm25/35 ≤ s.o3/160 ∧ s.pm10/50 ≤ s.o3/160) ∨
      ((calculate_air_quality s).dominant_pollutant = "PM2.5" ∧
        s.no2/200 < s.pm25/35 ∧ s.o3/160 < s.pm25/35 ∧ s.pm10/50 ≤ s.pm25/35) ∨
      ((calculate_air_quality s).dominant_pollutant = "PM10" ∧
        s.no2/200 < s.pm10/50 ∧ s.o3/160 < s.pm10/50 ∧ s.pm25/35 < s.pm10/50)) ∧
    (∀ s : SurfaceEstimate,
      s.no2/200 < s.pm25/35 → s.o3/160 < s.pm25/35 → s.pm10/50 < s.pm25/35 →
      (calculate_air_quality s).dominant_pollutant = "PM2.5") := by
  refine ⟨dominant_cases, fun s hn ho hp => ?_⟩
  rcases dominant_cases s with ⟨h, _, hh, _⟩ | ⟨h, _, hh, _⟩ | ⟨h, _, _, _⟩ | ⟨h, _, _, hh⟩
  · exact absurd hn (not_lt.mpr hh)
  · exact absurd ho (not_lt.mpr hh)
  · exact h
  · exact absurd hh (not_lt.mpr hp.le)

unseal Rat.mul Rat.inv Rat.add Rat.sub in
/-- Witness for the amended C6 at estimates with only pm25 high. -/
theorem dominant_is_first_ratio_argmax_witness :
    (calculate_air_quality { no2 := 0, o3 := 0, pm25 := 100, pm10 := 0 }).dominant_pollutant
      = "PM2.5" :=
  dominant_is_first_ratio_argmax.2 { no2 := 0, o3 := 0, pm25 := 100, pm10 := 0 }
    (by decide) (by decide) (by decide)

namespace Concurrency

lemma step_good {s : Sys} (t : Bool) (h : good s) : good (step s t) := by
  obtain ⟨p0, p1, cd, lk, n⟩ := s
  cases t <;> cases p0 <;> cases p1 <;> cases cd <;> cases lk <;>
    simp_all [good, step, pcOf, setPc, inCrit]

lemma run_good {s : Sys} (sched : List Bool) (h : good s) : good (run s sched) := by
  induction sched generalizing s with
  | nil => exact h
  | cons t rest ih => exact ih (step_good t h)

end Concurrency

/-- C9 (counterexample): a concrete interleaving in which both callers
miss the cache, then run the compute pipeline one after the other — the
source takes the processing lock but never re-checks the cache inside the
critical section, so both callers execute the full pipeline
(`computes = 2 > 1`). -/
theorem both_callers_compute :
    1 < (Concurrency.run Concurrency.init
      [false, true, false, false, false, true, true, true]).computes := by
  decide

/-- C9 (amended): the per-process `processing_lock` does guarantee that at
most one caller is inside the compute pipeline at any time (mutual
exclusion, for every schedule from the double-miss start state), but it
does not prevent duplicate work: there is a schedule on which both callers
run the full pipeline for the same key, since the cache is not re-checked
inside the critical section. -/
theorem processing_lock_mutual_exclusion :
    (∀ sched : List Bool,
      (Concurrency.inCrit (Concurrency.run Concurrency.init sched).pc0 &&
        Concurrency.inCrit (Concurrency.run Concurrency.init sched).pc1) = false) ∧
    (∃ sched : List Bool,
      1 < (Concurrency.run Concurrency.init sched).computes) := by
  constructor
  · intro sched
    exact (Concurrency.run_good sched
      (by simp [Concurrency.good, Concurrency.init, Concurrency.inCrit])).2
  · exact ⟨[false, true, false, false, false, true, true, true], by decide⟩

/-! Helper lemmas about the cache. -/

lemma put_on_empty (mb th : ℕ) (d : ProcessedData) (t : Time) :
    (mkCache mb th).put d t =
    { max_size_bytes := (mb:ℤ) * 1024 * 1024
      ttl_seconds := (th:ℚ) * 3600
      cache := [(d.cache_key,
        { data := d, created_at := t, expires_at := t + (th:ℚ) * 3600
          access_count := 1, last_accessed := t
          file_size_bytes := calculate_entry_size d })]
      access_order := [d.cache_key]
      current_size := 0 + calculate_entry_size d } := by
  simp [SatelliteDataCache.put, mkCache, SatelliteDataCache.evict_lru, evictLoop,
    aset, updateAccessOrder, List.erase]

/-- C8: putting a value into a fresh cache configured with a TTL of `th`
hours (`T = th * 3600` seconds) at time `t`, a `get` for its key at
`t + T - 1` returns the value; a subsequent `get` at `t + T + 1` returns
nothing, removes the entry, and the entry count drops to 0. -/
theorem ttl_correctness (mb th : ℕ) (d : ProcessedData) (t : Time) :
    ((((mkCache mb th).put d t).get d.cache_key (t + (th:ℚ) * 3600 - 1)).1 = some d) ∧
    (((((mkCache mb th).put d t).get d.cache_key (t + (th:ℚ) * 3600 - 1)).2.get
        d.cache_key (t + (th:ℚ) * 3600 + 1)).1 = none) ∧
    ((((mkCache mb th).put d t).get d.cache_key (t + (th:ℚ) * 3600 - 1)).2.get
        d.cache_key (t + (th:ℚ) * 3600 + 1)).2.get_cache_stats.total_entries = 0 := by
  rw [put_on_empty]
  have h1 : ¬ (t + (th:ℚ) * 3600 < t + (th:ℚ) * 3600 - 1) := by linarith
  have h2 : t + (th:ℚ) * 3600 < t + (th:ℚ) * 3600 + 1 := by linarith
  simp [SatelliteDataCache.get, aget, aset, adel, updateAccessOrder,
    SatelliteDataCache.get_cache_stats, h1, h2]

unseal Rat.mul Rat.inv Rat.add Rat.sub in
/-- C3 (counterexample): a raw record with NO `satellite_pass_time` and NO
`timestamp` key does not make `process_satellite_data` fail — the call
substitutes the current time (1000) for the missing source timestamp,
returns a `ProcessedData`, and caches it (entry count 1), contrary to the
claimed hard malformed-input error that is not cached. -/
theorem process_missing_timestamp_succeeds :
    (process_satellite_data (mkCache 500 6) "X" 0 0 {} 1000 0 (3/2)).1.satellite_pass_time
      = 1000 ∧
    (process_satellite_data (mkCache 500 6) "X" 0 0 {} 1000 0 (3/2)).2.get_cache_stats.total_entries
      = 1 := by
  refine ⟨by decide, by decide⟩

/-- C3 (amended): `process_satellite_data` never raises for a missing
source timestamp: on a cache miss it always returns a `ProcessedData`
whose `satellite_pass_time` is the raw record's value when present and
the current time otherwise, scored with that defaulted time, and the
result is cached. -/
theorem process_returns_result (city : String) (lat lon : ℚ)
    (raw : RawData) (now : Time) (u r : ℚ) :
    (process_satellite_data (mkCache 500 6) city lat lon raw now u r).1.satellite_pass_time
      = raw.satellite_pass_time.getD now ∧
    (process_satellite_data (mkCache 500 6) city lat lon raw now u r).1.data_quality
      = calculate_quality_score raw.measurements (raw.satellite_pass_time.getD now) now ∧
    (process_satellite_data (mkCache 500 6) city lat lon raw now u r).2.get_cache_stats.total_entries
      = 1 := by
  simp [process_satellite_data, SatelliteDataCache.get, SatelliteDataCache.put,
    SatelliteDataCache.evict_lru, evictLoop, mkCache, aget, aset, updateAccessOrder,
    SatelliteDataCache.get_cache_stats]

/-! Helper lemmas for the eviction bound. -/

lemma sizeSum_cons (p : String × CacheEntry) (l : List (String × CacheEntry)) :
    sizeSum (p :: l) = p.2.file_size_bytes + sizeSum l := by
  simp [sizeSum]

lemma sizeSum_append_single (l : List (String × CacheEntry)) (k : String) (v : CacheEntry) :
    sizeSum (l ++ [(k, v)]) = sizeSum l + v.file_size_bytes := by
  simp [sizeSum]

lemma keysOf_append_single (l : List (String × CacheEntry)) (k : String) (v : CacheEntry) :
    keysOf (l ++ [(k, v)]) = keysOf l ++ [k] := by
  simp [keysOf]

lemma aset_append (l : List (String × CacheEntry)) (k : String) (v : CacheEntry)
    (h : k ∉ keysOf l) : aset l k v = l ++ [(k, v)] := by
  induction l with
  | nil => simp [aset]
  | cons p rest ih =>
    have hne : ¬ (p.1 = k) := by
      intro he
      exact h (by simp [keysOf, he])
    have hk : k ∉ keysOf rest := fun hm => h (by simp [keysOf] at hm ⊢; exact Or.inr hm)
    simp [aset, hne, ih hk]

lemma calculate_entry_size_nonneg (d : ProcessedData) : 0 ≤ calculate_entry_size d := by
  unfold calculate_entry_size
  positivity

lemma evictLoop_spec (m : ℤ) (ord : List String) :
    ∀ (cache : List (String × CacheEntry)) (cur : ℤ),
    cur = sizeSum cache → ord = keysOf cache →
    (evictLoop m ord cache cur).2.2 = sizeSum (evictLoop m ord cache cur).2.1 ∧
    (evictLoop m ord cache cur).1 = keysOf (evictLoop m ord cache cur).2.1 ∧
    ((evictLoop m ord cache cur).2.2 ≤ m ∨ (evictLoop m ord cache cur).2.1 = []) ∧
    (∀ x, x ∈ keysOf (evictLoop m ord cache cur).2.1 → x ∈ keysOf cache) := by
  induction ord with
  | nil =>
    intro cache cur hs hk
    have hc : cache = [] := by
      cases cache with
      | nil => rfl
      | cons p l => simp [keysOf] at hk
    subst hc
    refine ⟨by simpa [evictLoop] using hs, by simp [evictLoop, keysOf], Or.inr rfl, ?_⟩
    intro x hx
    exact hx
  | cons k rest ih =>
    intro cache cur hs hk
    cases cache with
    | nil => simp [keysOf] at hk
    | cons p l =>
      have hk1 : k = p.1 ∧ rest = keysOf l := by
        constructor
        · simpa [keysOf] using congrArg (fun xs => xs.headI) hk
        · simpa [keysOf] using congrArg List.tail hk
      obtain ⟨he1, he2⟩ := hk1
      subst he1
      by_cases hm : m < cur
      · have haget : aget (p :: l) p.1 = some p.2 := by simp [aget]
        have hadel : adel (p :: l) p.1 = l := by simp [adel]
        have hstep : evictLoop m (p.1 :: rest) (p :: l) cur
            = evictLoop m rest l (cur - p.2.file_size_bytes) := by
          simp [evictLoop, hm, haget, hadel]
        have hs2 : cur - p.2.file_size_bytes = sizeSum l := by
          rw [hs, sizeSum_cons]; ring
        obtain ⟨i1, i2, i3, i4⟩ := ih l (cur - p.2.file_size_bytes) hs2 he2
        rw [hstep]
        refine ⟨i1, i2, i3, fun x hx => ?_⟩
        have := i4 x hx
        simp [keysOf] at this ⊢
        exact Or.inr this
      · have hstep : evictLoop m (p.1 :: rest) (p :: l) cur = (p.1 :: rest, p :: l, cur) := by
          simp [evictLoop, hm]
        rw [hstep]
        exact ⟨hs, by simpa [keysOf] using hk, Or.inl (not_lt.mp hm), fun x hx => hx⟩

lemma put_spec (c : SatelliteDataCache) (d : ProcessedData) (t : Time)
    (hinv : SizeInv c) (hmax : 0 ≤ c.max_size_bytes)
    (hfresh : d.cache_key ∉ keysOf c.cache) :
    SizeInv (c.put d t) ∧
    (c.put d t).current_size ≤ c.max_size_bytes + calculate_entry_size d ∧
    (c.put d t).max_size_bytes = c.max_size_bytes ∧
    (∀ x, x ∈ keysOf (c.put d t).cache → x ∈ keysOf c.cache ∨ x = d.cache_key) := by
  obtain ⟨hs, hk⟩ := hinv
  have hsz := calculate_entry_size_nonneg d
  set e : CacheEntry :=
    { data := d, created_at := t, expires_at := t + c.ttl_seconds
      access_count := 1, last_accessed := t
      file_size_bytes := calculate_entry_size d } with he
  set c1 := if c.max_size_bytes < c.current_size + calculate_entry_size d
      then c.evict_lru else c with hc1
  have h1 : (c1.current_size = sizeSum c1.cache ∧ c1.access_order = keysOf c1.cache) ∧
      c1.current_size ≤ c.max_size_bytes ∨
      (c1 = c ∧ c.current_size + calculate_entry_size d ≤ c.max_size_bytes) := by
    rw [hc1]
    split_ifs with hcond
    · left
      obtain ⟨i1, i2, i3, i4⟩ := evictLoop_spec c.max_size_bytes c.access_order c.cache
        c.current_size hs hk
      unfold SatelliteDataCache.evict_lru
      dsimp only
      refine ⟨⟨i1, i2⟩, ?_⟩
      rcases i3 with h | h
      · exact h
      · rw [i1, h]
        simpa [sizeSum] using hmax
    · right
      exact ⟨rfl, by linarith [not_lt.mp hcond]⟩
  have hkeys1 : ∀ x, x ∈ keysOf c1.cache → x ∈ keysOf c.cache := by
    rw [hc1]
    split_ifs with hcond
    · obtain ⟨_, _, _, i4⟩ := evictLoop_spec c.max_size_bytes c.access_order c.cache
        c.current_size hs hk
      unfold SatelliteDataCache.evict_lru
      dsimp only
      exact i4
    · exact fun x hx => hx
  have hinv1 : c1.current_size = sizeSum c1.cache ∧ c1.access_order = keysOf c1.cache := by
    rcases h1 with ⟨hi, _⟩ | ⟨hceq, _⟩
    · exact hi
    · rw [hceq]; exact ⟨hs, hk⟩
  have hbound1 : c1.current_size + calculate_entry_size d
      ≤ c.max_size_bytes + calculate_entry_size d := by
    rcases h1 with ⟨_, hb⟩ | ⟨hceq, hb⟩
    · linarith
    · rw [hceq]; linarith
  have hfresh1 : d.cache_key ∉ keysOf c1.cache := fun hm => hfresh (hkeys1 _ hm)
  have hmax1 : c1.max_size_bytes = c.max_size_bytes := by
    rw [hc1]
    split_ifs
    · simp [SatelliteDataCache.evict_lru]
    · rfl
  have hput : c.put d t =
      { c1 with cache := aset c1.cache d.cache_key e
                current_size := c1.current_size + calculate_entry_size d
                access_order := updateAccessOrder c1.access_order d.cache_key } := by
    rw [SatelliteDataCache.put]
  have haset : aset c1.cache d.cache_key e = c1.cache ++ [(d.cache_key, e)] :=
    aset_append _ _ _ hfresh1
  have horder : updateAccessOrder c1.access_order d.cache_key
      = keysOf (c1.cache ++ [(d.cache_key, e)]) := by
    rw [updateAccessOrder, hinv1.2, List.erase_of_not_mem hfresh1, keysOf_append_single]
  rw [hput]
  refine ⟨⟨?_, ?_⟩, ?_, ?_, ?_⟩
  · simp only [haset, sizeSum_append_single, hinv1.1, he]
  · simp only [haset, horder]
  · simpa using hbound1
  · simpa using hmax1
  · intro x hx
    simp only [haset] at hx
    rcases (by simpa [keysOf] using hx : x ∈ keysOf c1.cache ∨ x = d.cache_key) with h | h
    · exact Or.inl (hkeys1 _ h)
    · exact Or.inr h

lemma putSeq_bound_aux (ps : List (ProcessedData × Time)) (d : ProcessedData) (t : Time) :
    ∀ c : SatelliteDataCache,
    SizeInv c → 0 ≤ c.max_size_bytes →
    (∀ p ∈ ps ++ [(d, t)], p.1.cache_key ∉ keysOf c.cache) →
    ((ps ++ [(d, t)]).map fun p => p.1.cache_key).Nodup →
    (putSeq c (ps ++ [(d, t)])).current_size
      ≤ c.max_size_bytes + calculate_entry_size d := by
  induction ps with
  | nil =>
    intro c hinv hmax hfresh _
    have := put_spec c d t hinv hmax (hfresh (d, t) (by simp))
    simpa [putSeq] using this.2.1
  | cons q qs ih =>
    intro c hinv hmax hfresh hnodup
    have hqfresh : q.1.cache_key ∉ keysOf c.cache := hfresh q (by simp)
    obtain ⟨hinv2, _, hmax2, hkeys2⟩ := put_spec c q.1 q.2 hinv hmax hqfresh
    have hfresh2 : ∀ p ∈ qs ++ [(d, t)], p.1.cache_key ∉ keysOf (c.put q.1 q.2).cache := by
      intro p hp hmem
      rcases hkeys2 _ hmem with h | h
      · exact hfresh p (by simp only [List.cons_append]; exact List.mem_cons_of_mem _ hp) h
      · have hne : p.1.cache_key ≠ q.1.cache_key := by
          have := hnodup
          simp only [List.cons_append, List.map_cons, List.nodup_cons] at this
          exact fun he => this.1 (by
            rw [← he]
            exact List.mem_map_of_mem _ hp)
        exact hne h
    have hnodup2 : ((qs ++ [(d, t)]).map fun p => p.1.cache_key).Nodup := by
      simp only [List.cons_append, List.map_cons, List.nodup_cons] at hnodup
      exact hnodup.2
    have := ih (c.put q.1 q.2) hinv2 (hmax2 ▸ hmax) hfresh2 hnodup2
    calc (putSeq c ((q :: qs) ++ [(d, t)])).current_size
        = (putSeq (c.put q.1 q.2) (qs ++ [(d, t)])).current_size := by simp [putSeq]
      _ ≤ (c.put q.1 q.2).max_size_bytes + calculate_entry_size d := this
      _ = c.max_size_bytes + calculate_entry_size d := by rw [hmax2]

unseal Rat.mul Rat.inv Rat.add Rat.sub in
/-- C4 (counterexample): with a 0 MiB budget, a single `put` of a minimal
record leaves the tracked size at 1136 bytes, above the budget: `put`
evicts BEFORE inserting and `_evict_lru` only shrinks to `current_size ≤
max_size_bytes`, so the insertion itself can push the total past the
budget. -/
theorem cache_budget_exceeded :
    (mkCache 0 6).max_size_bytes
      < ((mkCache 0 6).put dSmall 0).get_cache_stats.total_size_bytes := by
  decide

/-- C4 (amended): after any sequence of `put` calls with pairwise-distinct
cache keys starting from an empty cache, the tracked size exceeds the
configured byte budget by at most the size of the last inserted entry:
`current_size ≤ max_size_bytes + entrySize(last)`. -/
theorem cache_size_bound (mb th : ℕ) (ps : List (ProcessedData × Time))
    (d : ProcessedData) (t : Time)
    (h : ((ps ++ [(d, t)]).map fun p => p.1.cache_key).Nodup) :
    (putSeq (mkCache mb th) (ps ++ [(d, t)])).current_size
      ≤ (mkCache mb th).max_size_bytes + calculate_entry_size d := by
  apply putSeq_bound_aux
  · exact ⟨rfl, rfl⟩
  · simp [mkCache]
  · intro p _ hmem
    simp [mkCache, keysOf] at hmem
  · exact h

unseal Rat.mul Rat.inv Rat.add Rat.sub in
/-- Witness for the amended C4: two puts with distinct keys into a 0 MiB
cache stay within budget + last entry size. -/
theorem cache_size_bound_witness :
    (putSeq (mkCache 0 6) ([(dSmall, 0)] ++ [(dSmall2, 0)])).current_size
      ≤ (mkCache 0 6).max_size_bytes + calculate_entry_size dSmall2 :=
  cache_size_bound 0 6 [(dSmall, 0)] dSmall2 0 (by decide)

end AirVision
